import Mathlib

/-!
Verification development for the `pymycqu` authentication module.

The Python sources `mycqu/auth/_authserver.py` and `mycqu/card/_help.py` are
shallowly embedded below.  HTTP traffic is modelled by an environment
`Env : Nat → Response` giving the response of the provider to the n-th request of a
session, together with a `NetState` recording the requests issued so far, so
that theorems can speak about the exact sequence of network calls a code path
performs.  The base class `Authorizer`, the page parser module `_page_parser`
and the SSO backend are not part of the sources; where they are needed they
are either kept abstract (the two parsing callbacks) or modelled from the
specification, as marked in the corresponding doc comments.
-/

set_option autoImplicit false

/-- An HTTP response as the embedded code observes it: status code, body text
and the `Location` header. -/
structure Response where
  status_code : Nat := 200
  text : String := ""
  location : String := ""
deriving Repr

/-- A value stored in a Python form-data dictionary.  Besides strings the
source (line 91 of `_authserver.py`) can store a whole dictionary as a value,
so the type is recursive. -/
inductive FVal where
  | str : String → FVal
  | dict : List (String × FVal) → FVal
deriving Repr

/-- Form data: an insertion-ordered string-keyed dictionary, as the Python
`dict` used by the source. -/
abbrev FormData := List (String × FVal)

/-- Python `d[k] = v`: overwrite the binding in place if the key is present,
otherwise append it. -/
def dictSet : FormData → String → FVal → FormData
  | [], k, v => [(k, v)]
  | (k', v') :: rest, k, v =>
    if k' = k then (k, v) :: rest else (k', v') :: dictSet rest k v

/-- Python `k in d`. -/
def dictHas : FormData → String → Bool
  | [], _ => false
  | (k', _) :: rest, k => k' == k || dictHas rest k

/-- Python `del d[k]` (the source only calls it under a `k in d` guard). -/
def dictDel : FormData → String → FormData
  | [], _ => []
  | (k', v') :: rest, k => if k' = k then rest else (k', v') :: dictDel rest k

/-- Python `d[k]` as an optional lookup. -/
def dictGet : FormData → String → Option FVal
  | [], _ => none
  | (k', v') :: rest, k => if k' = k then some v' else dictGet rest k

/-- One HTTP request as issued through the `requests` session: method, url,
query parameters, posted form data, the `allow_redirects` flag, and the
timeout argument (`none` when the source passes no timeout at all). -/
structure Req where
  isPost : Bool := false
  url : String
  params : List (String × String) := []
  data : FormData := []
  allow_redirects : Bool := true
  timeout : Option Nat := none

/-- The network-visible state of a session: how many requests have been
issued (`idx`) and the trace of the requests themselves. -/
structure NetState where
  idx : Nat := 0
  trace : List Req := []

/-- The provider environment: the response it gives to the n-th request. -/
abbrev Env := Nat → Response

/-- Issue one request: the environment answers by position, the request is
appended to the trace. -/
def doRequest (env : Env) (r : Req) (s : NetState) : Response × NetState :=
  (env s.idx, { idx := s.idx + 1, trace := s.trace ++ [r] })

def LOGIN_URL : String := "http://authserver.cqu.edu.cn/authserver/login"
def LOGOUT_URL : String := "http://authserver.cqu.edu.cn/authserver/logout"
def AUTHSERVER_CAPTCHA_DETERMINE_URL : String :=
  "http://authserver.cqu.edu.cn/authserver/needCaptcha.html"
def AUTHSERVER_CAPTCHA_IMAGE_URL : String :=
  "http://authserver.cqu.edu.cn/authserver/captcha.html"

/-- The instance attributes of an `AuthserverAuthorizer` that
`_get_request_data`, `_need_captcha`, `_handle_login_error` and `_login`
read (`self.username`, `self.password`, `self.service`, `self.timeout`,
`self.force_relogin`, `self.keep_longer`, `self.kick_others`). -/
structure Cfg where
  username : String := "u"
  password : String := "p"
  service : Option String := none
  timeout : Nat := 10
  force_relogin : Bool := false
  keep_longer : Bool := false
  kick_others : Bool := false

/-- The exceptions the embedded login flow can raise.  `multiSessionConflict`
carries the two continuation tokens its `kick`/`cancel` closures close
over. -/
inductive AuthErr where
  | unknownAuthserver : String → AuthErr
  | parseError : AuthErr
  | multiSessionConflict : String → String → AuthErr
  | needCaptcha : AuthErr
deriving Repr

/-- The `get_login_page` partial application of `_get_request_data`
(lines 56–60): GET on the login url, the service as query parameter when
present, redirects not followed, the caller timeout passed through. -/
def loginPageReq (c : Cfg) : Req :=
  { isPost := false, url := LOGIN_URL,
    params := match c.service with
      | none => []
      | some sv => [("service", sv)],
    data := [], allow_redirects := false, timeout := some c.timeout }

/-- Modelled from the spec: `Authorizer.logout` is defined in the base class,
which is not among the source files.  Spec §4.2 has it invalidate the login
server-side through the logout endpoint of the provider (§6: "logout GET"), so it
is modelled as a single GET to `LOGOUT_URL`. -/
def logoutReq : Req :=
  { isPost := false, url := LOGOUT_URL, params := [], data := [],
    allow_redirects := true, timeout := none }

/-- The call `logout_authserver(session)` as made from `_get_request_data`:
issues the logout request and discards the response. -/
def logout_authserver (env : Env) (s : NetState) : Response × NetState :=
  doRequest env logoutReq s

/-- The type of `_get_formdata(html, username, password)` from
`_page_parser`, a module not among the source files; it is kept abstract as
a parameter.  It returns the assembled form data or raises `ParseError`
(modelled as `Except Unit`). -/
abbrev GetFormdata := String → String → String → Except Unit FormData

/-- The information `_LoginedPageParser` extracts from a failed-login page:
whether the conflict ("kick") marker is present and the two execution
tokens.  The parser lives in `_page_parser`, not among the source files, so
its behaviour is an abstract parameter of type `ParsePage`. -/
structure LoginedParse where
  kick : Bool := false
  kick_execution : String := ""
  cancel_execution : String := ""

/-- Abstract `_LoginedPageParser` behaviour: status code and page text in,
parsed conflict information out. -/
abbrev ParsePage := Nat → String → LoginedParse

/-- Lines 76–80 of `_authserver.py`: add `rememberMe=on` when `keep_longer`,
then strip any `captchaResponse` field. -/
def finalizeFormdata (c : Cfg) (fd : FormData) : FormData :=
  let fd1 := if c.keep_longer then dictSet fd "rememberMe" (FVal.str "on") else fd
  if dictHas fd1 "captchaResponse" then dictDel fd1 "captchaResponse" else fd1

/-- The result of `_get_request_data`: the Python function is declared to
return a `Dict` but the already-authenticated short circuit (line 64)
returns the raw `Response`, so the embedded result is a sum. -/
inductive RequestData where
  | formdata : FormData → RequestData
  | response : Response → RequestData

/-- Lines 71–75 of `_authserver.py`: try to extract the form data from the
page at hand; on `ParseError`, log out, fetch the login page once more and
extract from that — a second failure propagates. -/
def extractOrRetry (gf : GetFormdata) (c : Cfg) (env : Env) (login_page : Response)
    (s : NetState) : Except AuthErr FormData × NetState :=
  match gf login_page.text c.username c.password with
  | .ok fd => (.ok fd, s)
  | .error _ =>
    let s1 := (logout_authserver env s).2
    let r2 := doRequest env (loginPageReq c) s1
    match gf r2.1.text c.username c.password with
    | .ok fd => (.ok fd, r2.2)
    | .error _ => (.error .parseError, r2.2)

/-- The tail of `_get_request_data` (lines 76–82): on a successful
extraction, finalize the form data into the result; a raised error
propagates unchanged. -/
def wrapRD (c : Cfg) (x : Except AuthErr FormData × NetState) :
    Except AuthErr RequestData × NetState :=
  match x with
  | (.ok fd, s4) => (.ok (.formdata (finalizeFormdata c fd)), s4)
  | (.error e, s4) => (.error e, s4)

/-- Method `AuthserverAuthorizer._get_request_data` (lines 55–82): fetch the login
page without following redirects; on 302 either short-circuit with the raw
response (`force_relogin` false) or log out and re-fetch; on any other
non-200 status raise; then extract the form fields with one
logout-and-retry on `ParseError`, add `rememberMe` when requested and strip
any `captchaResponse` field. -/
def _get_request_data (gf : GetFormdata) (c : Cfg) (env : Env) (s : NetState) :
    Except AuthErr RequestData × NetState :=
  let r1 := doRequest env (loginPageReq c) s
  if r1.1.status_code == 302 then
    if !c.force_relogin then
      (.ok (.response r1.1), r1.2)
    else
      let s2 := (logout_authserver env r1.2).2
      let r2 := doRequest env (loginPageReq c) s2
      wrapRD c (extractOrRetry gf c env r2.1 r2.2)
  else if r1.1.status_code != 200 then
    (.error (.unknownAuthserver "unexpected status code"), r1.2)
  else
    wrapRD c (extractOrRetry gf c env r1.1 r1.2)

/-- The CAPTCHA-requirement probe of `_need_captcha` (line 85): plain GET,
redirects followed by default, and no timeout argument at all. -/
def captchaProbeReq (c : Cfg) : Req :=
  { isPost := false, url := AUTHSERVER_CAPTCHA_DETERMINE_URL,
    params := [("username", c.username)], data := [],
    allow_redirects := true, timeout := none }

/-- Method `AuthserverAuthorizer._need_captcha` (lines 84–88): probe the
determine-url with the username; answer the image url when the body is the
string "true". -/
def _need_captcha (c : Cfg) (env : Env) (s : NetState) : Option String × NetState :=
  let r := doRequest env (captchaProbeReq c) s
  if r.1.text == "true" then (some AUTHSERVER_CAPTCHA_IMAGE_URL, r.2) else (none, r.2)

/-- Method `AuthserverAuthorizer._need_captcha_handler` (lines 90–91), translated
faithfully: the source assigns the whole `request_data` mapping — not the
`captcha` answer string — as the value of the `captchaResponse` field. -/
def _need_captcha_handler (captcha : String) (request_data : FormData) : FormData :=
  dictSet request_data "captchaResponse" (FVal.dict request_data)

/-- The redirect-following GET of `_redirect_to_service` (line 94): GET on
the `Location` header, redirects not followed, no timeout argument. -/
def redirectReq (login_resp : Response) : Req :=
  { isPost := false, url := login_resp.location, params := [], data := [],
    allow_redirects := false, timeout := none }

/-- Method `AuthserverAuthorizer._redirect_to_service` (lines 93–94). -/
def _redirect_to_service (env : Env) (login_resp : Response) (s : NetState) :
    Response × NetState :=
  doRequest env (redirectReq login_resp) s

/-- The POST issued by the `kick` closure (lines 103–108): execution token
with `_eventId=continue`, redirects not followed, the caller timeout. -/
def kickReq (c : Cfg) (ke : String) : Req :=
  { isPost := true, url := LOGIN_URL, params := [],
    data := [("execution", FVal.str ke), ("_eventId", FVal.str "continue")],
    allow_redirects := false, timeout := some c.timeout }

/-- The `kick` closure of `_handle_login_error` (lines 101–109): POST the
kick execution token, then follow the redirect to the service. -/
def kick (c : Cfg) (ke : String) (env : Env) (s : NetState) : Response × NetState :=
  let r := doRequest env (kickReq c ke) s
  _redirect_to_service env r.1 r.2

/-- The POST issued by the `cancel` closure (lines 116–121): execution token
with `_eventId=cancel`, redirects not followed, the caller timeout. -/
def cancelReq (c : Cfg) (ce : String) : Req :=
  { isPost := true, url := LOGIN_URL, params := [],
    data := [("execution", FVal.str ce), ("_eventId", FVal.str "cancel")],
    allow_redirects := false, timeout := some c.timeout }

/-- The `cancel` closure of `_handle_login_error` (lines 114–121). -/
def cancel (c : Cfg) (ce : String) (env : Env) (s : NetState) : Response × NetState :=
  doRequest env (cancelReq c ce) s

/-- Method `AuthserverAuthorizer._handle_login_error` (lines 96–126): parse the
failed-login page; on a conflict marker either run the kick flow at once
(`kick_others`) or raise `MultiSessionConflict` carrying the two execution
tokens its closures use; otherwise raise `UnknownAuthserverException`. -/
def _handle_login_error (pp : ParsePage) (c : Cfg) (env : Env) (login_resp : Response)
    (s : NetState) : Except AuthErr Response × NetState :=
  let parsed := pp login_resp.status_code login_resp.text
  if parsed.kick then
    if c.kick_others then
      let r := kick c parsed.kick_execution env s
      (.ok r.1, r.2)
    else
      (.error (.multiSessionConflict parsed.kick_execution parsed.cancel_execution), s)
  else
    (.error (.unknownAuthserver "status code not 302 and no conflict marker"), s)

/-- The credential-submission POST of `_login` (lines 129–130): the form
data, redirects not followed, and no timeout argument at all. -/
def loginPostReq (request_data : FormData) : Req :=
  { isPost := true, url := LOGIN_URL, params := [], data := request_data,
    allow_redirects := false, timeout := none }

/-- Method `AuthserverAuthorizer._login` (lines 128–134): POST the credentials; on
anything but 302 delegate to `_handle_login_error`, otherwise follow the
redirect to the service. -/
def _login (pp : ParsePage) (c : Cfg) (request_data : FormData) (env : Env)
    (s : NetState) : Except AuthErr Response × NetState :=
  let r1 := doRequest env (loginPostReq request_data) s
  if r1.1.status_code != 302 then
    _handle_login_error pp c env r1.1 r1.2
  else
    let r2 := _redirect_to_service env r1.1 r1.2
    (.ok r2.1, r2.2)

/-- The CAPTCHA-challenge image fetch of the base login flow.  Modelled from
the spec: the fetch of the challenge image (§4.2 step 4, the image url
returned by `_need_captcha`) happens in the base class, which is not among
the source files. -/
def captchaImageReq : Req :=
  { isPost := false, url := AUTHSERVER_CAPTCHA_IMAGE_URL, params := [],
    data := [], allow_redirects := true, timeout := none }

/-- The CAPTCHA resolver callback: challenge image bytes and MIME type in,
optional answer text out (spec §6). -/
abbrev Resolver := String → String → Option String

/-- Modelled from the spec: the shared login state machine of
`Authorizer.login` (§4.2 steps 1–6), whose base-class code is not among the
source files.  It composes the source-translated Authserver methods: get the
request data, short-circuit on the already-authenticated response, probe for
a CAPTCHA, resolve it through the callback or raise `NeedCaptcha`, then
submit the credentials. -/
def base_login (gf : GetFormdata) (pp : ParsePage) (resolver : Option Resolver)
    (c : Cfg) (env : Env) (s : NetState) : Except AuthErr Response × NetState :=
  match _get_request_data gf c env s with
  | (.error e, s1) => (.error e, s1)
  | (.ok (.response r), s1) => (.ok r, s1)
  | (.ok (.formdata fd), s1) =>
    match _need_captcha c env s1 with
    | (none, s2) => _login pp c fd env s2
    | (some _, s2) =>
      match resolver with
      | none => (.error .needCaptcha, s2)
      | some f =>
        let ri := doRequest env captchaImageReq s2
        match f ri.1.text "image/jpeg" with
        | none => (.error .needCaptcha, ri.2)
        | some ans => _login pp c (_need_captcha_handler ans fd) env ri.2

/-- The error `access_service` can raise. -/
inductive AccessErr where
  | notLogined : AccessErr
deriving Repr

/-- The service-access GET of `access_service`.  Modelled from the spec:
§6 lists a "service-access GET"; for the Authserver backend this is the
login endpoint with the service as query parameter. -/
def accessServiceReq (service : String) : Req :=
  { isPost := false, url := LOGIN_URL, params := [("service", service)],
    data := [], allow_redirects := false, timeout := none }

/-- Modelled from the spec: `Authorizer.access_service` (§4.2), whose
base-class code is not among the source files: request a service-access
grant; a redirect is followed one hop and returned, anything else raises
`NotLogined`. -/
def access_service (env : Env) (service : String) (s : NetState) :
    Except AccessErr Response × NetState :=
  let r := doRequest env (accessServiceReq service) s
  if r.1.status_code == 302 then
    let r2 := _redirect_to_service env r.1 r.2
    (.ok r2.1, r2.2)
  else
    (.error .notLogined, r.2)

/-- The deprecated wrapper `access_authserver_service` (lines 37–49 of
`_authserver.py`): it calls `AuthserverAuthorizer.access_service` but has no
`return` statement, so on success the Python function yields `None` — hence
the `Option Response` result, which is always `none` on the success path. -/
def access_authserver_service (env : Env) (service : String) (s : NetState) :
    Except AccessErr (Option Response) × NetState :=
  match access_service env service s with
  | (.error e, s1) => (.error e, s1)
  | (.ok _, s1) => (.ok none, s1)

/-- Is this request a GET on the login-page endpoint? -/
def isLoginPageGet (r : Req) : Bool :=
  !r.isPost && r.url == LOGIN_URL

/-- Number of GETs to the login-page endpoint in a trace. -/
def countLoginGets (t : List Req) : Nat :=
  (t.filter isLoginPageGet).length

/-- Number of GETs to the login-page endpoint issued before the first POST
of a trace — the login-page fetches that precede any credential
submission. -/
def preSubmissionLoginGets (t : List Req) : Nat :=
  countLoginGets (t.takeWhile (fun r => !r.isPost))

/-- Number of requests to the logout endpoint in a trace. -/
def countLogouts (t : List Req) : Nat :=
  (t.filter (fun r => r.url == LOGOUT_URL)).length

/-- The errors of the card helpers (`mycqu/card/_help.py`). -/
inductive CardErr where
  | ticketGetError : CardErr
  | cquWebsiteError : CardErr
deriving Repr, DecidableEq

/-- Python `hay.find(needle, start)` on character lists: the least index not
below `start` where `needle` occurs, or `-1`. -/
def pyFind (hay needle : List Char) (start : Nat) : Int :=
  match (List.range (hay.length + 1)).find?
      (fun i => decide (start ≤ i) && List.isPrefixOf needle (hay.drop i)) with
  | some i => (i : Int)
  | none => -1

/-- Python `l[a : b]` for a non-negative start `a` and a possibly negative
end `b` (a negative `b` counts from the end, as in the slice in the source with a
failed `find`). -/
def pySlice (l : List Char) (a : Nat) (b : Int) : List Char :=
  let bn : Nat := if b < 0 then ((l.length : Int) + b).toNat else b.toNat
  (l.take bn).drop a

/-- The single-quote character, written by code point to keep the
`find("'")` readable in the embedding. -/
def quoteChar : Char := Char.ofNat 39

/-- The marker `'ticket='` the source searches for. -/
def ticketMarker : List Char := "ticket=".toList

/-- Function `_get_ticket` of `mycqu/card/_help.py` (lines 37–55), text-processing
core: on a 200 response, find `'ticket='`; only when it starts at a strictly
positive offset, slice from just after the marker up to the next single
quote; otherwise raise `TicketGetError`. -/
def _get_ticket (status : Nat) (text : List Char) : Except CardErr (List Char) :=
  if status ≠ 200 then
    .error .cquWebsiteError
  else
    let ticket_start := pyFind text ticketMarker 0
    if ticket_start > 0 then
      let ticket_end := pyFind text [quoteChar] ticket_start.toNat
      .ok (pySlice text (ticket_start.toNat + ticketMarker.length) ticket_end)
    else
      .error .ticketGetError

/-- A standard assembled form-data value used by the concrete scenarios. -/
def fdStd : FormData := [("username", FVal.str "u"), ("password", FVal.str "p")]

/-- A concrete extractor: succeeds exactly on the page body "good". -/
def gfStd : GetFormdata := fun t _ _ =>
  if t == "good" then .ok fdStd else .error ()

/-- A concrete extractor that always fails with a parse error. -/
def gfBad : GetFormdata := fun _ _ _ => .error ()

/-- A concrete parser that never reports a conflict. -/
def ppNone : ParsePage := fun _ _ => {}

/-- A concrete parser that always reports a conflict with fixed kick and
cancel execution tokens. -/
def ppKick : ParsePage := fun _ _ =>
  { kick := true, kick_execution := "ke", cancel_execution := "ce" }

/-- A provider that always answers with a plain 200 page. -/
def envAny : Env := fun _ => {}

/-- A provider that always answers 302 with a service location. -/
def env302 : Env := fun _ =>
  { status_code := 302, location := "http://service.example" }

/-- A provider that always answers 200 with an unparsable body. -/
def envPlain : Env := fun _ => { status_code := 200, text := "bad" }

/-- The default authorizer configuration. -/
def cfgDefault : Cfg := {}

/-- A configuration requesting a forced relogin. -/
def cfgForce : Cfg := { force_relogin := true }

/-- A configuration requesting that conflicting sessions be kicked. -/
def cfgKick : Cfg := { kick_others := true }

/-- Provider script for the three-fetch scenario: the first login-page fetch
is a 302, the re-fetch after the forced logout yields an unparsable form,
and the fetch after the parse-failure logout yields a good form; then no
CAPTCHA, a 302 on submission, and a plain service page. -/
def envC2 : Env := fun n =>
  if n == 0 then { status_code := 302 }
  else if n == 2 then { status_code := 200, text := "bad" }
  else if n == 4 then { status_code := 200, text := "good" }
  else if n == 5 then { status_code := 200, text := "false" }
  else if n == 6 then { status_code := 302, location := "http://service.example" }
  else { status_code := 200 }

/-- Provider script for the force-relogin-from-a-fresh-form scenario: the
login page comes back 200 with a good form at once, the CAPTCHA probe says
no, the submission redirects, the service answers 200. -/
def envC3 : Env := fun n =>
  if n == 0 then { status_code := 200, text := "good" }
  else if n == 1 then { status_code := 200, text := "false" }
  else if n == 2 then { status_code := 302, location := "http://service.example" }
  else { status_code := 200 }

/-- A non-302 submission response carrying a conflict page. -/
def respConflict : Response := { status_code := 401, text := "conflict page" }

/-- Provider script for the CAPTCHA scenario: good login page, the probe
answers "true", an image body, a 302 on submission, a plain service page. -/
def envC5 : Env := fun n =>
  if n == 0 then { status_code := 200, text := "good" }
  else if n == 1 then { status_code := 200, text := "true" }
  else if n == 3 then { status_code := 302, location := "http://service.example" }
  else { status_code := 200 }

/-- A resolver callback that always answers the CAPTCHA with "A1B2". -/
def resolverStd : Resolver := fun _ _ => some "A1B2"

/-- Provider script for the kick-others scenario: the submission response is
a 401 conflict page, the kick POST redirects, the service answers 200. -/
def envC7 : Env := fun n =>
  if n == 0 then { status_code := 401, text := "conflict page" }
  else if n == 1 then { status_code := 302, location := "http://service.example" }
  else { status_code := 200 }

/-- A body in which `ticket=` occurs at offset 1 and a single quote follows
the ticket value. -/
def tC10 : List Char := "xticket=abc'def".toList

/-- A body in which `ticket=` occurs exactly at offset 0. -/
def tZero : List Char := "ticket=abc'def".toList

@[simp] theorem isPost_loginPageReq (c : Cfg) : (loginPageReq c).isPost = false := rfl

@[simp] theorem isPost_logoutReq : logoutReq.isPost = false := rfl

@[simp] theorem isPost_captchaProbeReq (c : Cfg) : (captchaProbeReq c).isPost = false := rfl

@[simp] theorem isPost_captchaImageReq : captchaImageReq.isPost = false := rfl

@[simp] theorem isPost_loginPostReq (fd : FormData) : (loginPostReq fd).isPost = true := rfl

@[simp] theorem isLoginPageGet_loginPageReq (c : Cfg) :
    isLoginPageGet (loginPageReq c) = true := rfl

@[simp] theorem isLoginPageGet_logoutReq : isLoginPageGet logoutReq = false := rfl

@[simp] theorem isLoginPageGet_captchaProbeReq (c : Cfg) :
    isLoginPageGet (captchaProbeReq c) = false := rfl

@[simp] theorem isLoginPageGet_captchaImageReq :
    isLoginPageGet captchaImageReq = false := rfl

@[simp] theorem isLoginPageGet_loginPostReq (fd : FormData) :
    isLoginPageGet (loginPostReq fd) = false := rfl

@[simp] theorem countLoginGets_nil : countLoginGets [] = 0 := rfl

@[simp] theorem countLoginGets_cons (r : Req) (t : List Req) :
    countLoginGets (r :: t) = (if isLoginPageGet r then 1 else 0) + countLoginGets t := by
  simp only [countLoginGets, List.filter_cons]
  split
  · simp [Nat.add_comm]
  · simp

@[simp] theorem countLoginGets_append (a b : List Req) :
    countLoginGets (a ++ b) = countLoginGets a + countLoginGets b := by
  simp [countLoginGets, List.filter_append]

theorem takeWhile_append_of_all {α : Type} (p : α → Bool) (l1 l2 : List α)
    (h : ∀ r ∈ l1, p r = true) : (l1 ++ l2).takeWhile p = l1 ++ l2.takeWhile p := by
  induction l1 with
  | nil => simp
  | cons a t ih =>
    have ha : p a = true := h a (List.mem_cons_self a t)
    simp [List.takeWhile_cons, ha, ih (fun r hr => h r (List.mem_cons_of_mem a hr))]

theorem takeWhile_eq_self_of_all {α : Type} (p : α → Bool) (l : List α)
    (h : ∀ r ∈ l, p r = true) : l.takeWhile p = l := by
  induction l with
  | nil => simp
  | cons a t ih =>
    have ha : p a = true := h a (List.mem_cons_self a t)
    simp [List.takeWhile_cons, ha, ih (fun r hr => h r (List.mem_cons_of_mem a hr))]

theorem preSub_all_nonpost (L : List Req) (h : ∀ r ∈ L, r.isPost = false) :
    preSubmissionLoginGets L = countLoginGets L := by
  unfold preSubmissionLoginGets
  rw [takeWhile_eq_self_of_all _ L (fun r hr => by rw [h r hr]; rfl)]

theorem preSub_before_post (L rest : List Req) (q : Req)
    (h : ∀ r ∈ L, r.isPost = false) (hq : q.isPost = true) :
    preSubmissionLoginGets (L ++ q :: rest) = countLoginGets L := by
  unfold preSubmissionLoginGets
  rw [takeWhile_append_of_all _ L (q :: rest) (fun r hr => by rw [h r hr]; rfl)]
  rw [List.takeWhile_cons_of_neg (by rw [hq]; simp)]
  simp

theorem need_captcha_state (c : Cfg) (env : Env) (s : NetState) :
    (_need_captcha c env s).2 = ⟨s.idx + 1, s.trace ++ [captchaProbeReq c]⟩ := by
  simp only [_need_captcha, doRequest]
  split <;> rfl

theorem extractOrRetry_trace (gf : GetFormdata) (c : Cfg) (env : Env) (lp : Response)
    (s : NetState) :
    ∃ L, (extractOrRetry gf c env lp s).2.trace = s.trace ++ L ∧
      (∀ r ∈ L, r.isPost = false) ∧ countLoginGets L ≤ 1 := by
  unfold extractOrRetry logout_authserver doRequest
  cases hg : gf lp.text c.username c.password with
  | ok fd =>
    exact ⟨[], by simp, by simp, by simp⟩
  | error e =>
    refine ⟨[logoutReq, loginPageReq c], ?_, ?_, by simp⟩
    · cases hg2 : gf (env (s.idx + 1)).text c.username c.password <;> simp [hg2]
    · intro r hr
      simp only [List.mem_cons, List.not_mem_nil, or_false] at hr
      rcases hr with rfl | rfl <;> simp

theorem nonpost_append {L1 L2 : List Req} (h1 : ∀ r ∈ L1, r.isPost = false)
    (h2 : ∀ r ∈ L2, r.isPost = false) : ∀ r ∈ L1 ++ L2, r.isPost = false := by
  intro r hr
  rcases List.mem_append.mp hr with h | h
  exacts [h1 r h, h2 r h]

theorem wrapRD_snd (c : Cfg) (x : Except AuthErr FormData × NetState) :
    (wrapRD c x).2 = x.2 := by
  rcases x with ⟨res, s4⟩
  cases res <;> rfl

theorem grd_trace (gf : GetFormdata) (c : Cfg) (env : Env) (s : NetState) :
    ∃ L, (_get_request_data gf c env s).2.trace = s.trace ++ L ∧
      (∀ r ∈ L, r.isPost = false) ∧ countLoginGets L ≤ 3 := by
  unfold _get_request_data logout_authserver doRequest
  dsimp only
  split
  · split
    · exact ⟨[loginPageReq c], by simp, by simp, by simp⟩
    · obtain ⟨L2, hT, hNP2, hC2⟩ := extractOrRetry_trace gf c env (env (s.idx + 1 + 1))
        ⟨s.idx + 1 + 1 + 1, s.trace ++ [loginPageReq c] ++ [logoutReq] ++ [loginPageReq c]⟩
      refine ⟨[loginPageReq c, logoutReq, loginPageReq c] ++ L2, ?_,
        nonpost_append (by simp) hNP2, ?_⟩
      · rw [wrapRD_snd, hT]
        simp
      · simp only [countLoginGets_append]
        have h3 : countLoginGets [loginPageReq c, logoutReq, loginPageReq c] = 2 := by simp
        omega
  · split
    · exact ⟨[loginPageReq c], by simp, by simp, by simp⟩
    · obtain ⟨L2, hT, hNP2, hC2⟩ := extractOrRetry_trace gf c env (env s.idx)
        ⟨s.idx + 1, s.trace ++ [loginPageReq c]⟩
      refine ⟨[loginPageReq c] ++ L2, ?_, nonpost_append (by simp) hNP2, ?_⟩
      · rw [wrapRD_snd, hT]
        simp
      · simp only [countLoginGets_append]
        have h1 : countLoginGets [loginPageReq c] = 1 := by simp
        omega

theorem login_post_trace (pp : ParsePage) (c : Cfg) (fd : FormData) (env : Env)
    (s : NetState) :
    ∃ rest, (_login pp c fd env s).2.trace = s.trace ++ loginPostReq fd :: rest := by
  unfold _login _handle_login_error kick _redirect_to_service doRequest
  dsimp only
  repeat' split
  all_goals first
    | (refine ⟨[], ?_⟩; simp; done)
    | (refine ⟨[redirectReq (env s.idx)], ?_⟩; simp; done)
    | (refine ⟨[kickReq c (pp (env s.idx).status_code (env s.idx).text).kick_execution,
        redirectReq (env (s.idx + 1))], ?_⟩; simp; done)

theorem login_preSubmission_bound (gf : GetFormdata) (pp : ParsePage)
    (resolver : Option Resolver) (c : Cfg) (env : Env) (n : Nat) :
    preSubmissionLoginGets ((base_login gf pp resolver c env ⟨n, []⟩).2.trace) ≤ 3 := by
  obtain ⟨L, hT, hNP, hC⟩ := grd_trace gf c env ⟨n, []⟩
  unfold base_login
  split
  next e s1 heq =>
    rw [heq] at hT
    have hs1 : s1.trace = L := by simpa using hT
    dsimp only
    rw [hs1, preSub_all_nonpost L hNP]
    exact hC
  next r s1 heq =>
    rw [heq] at hT
    have hs1 : s1.trace = L := by simpa using hT
    dsimp only
    rw [hs1, preSub_all_nonpost L hNP]
    exact hC
  next fd s1 heq =>
    rw [heq] at hT
    have hs1 : s1.trace = L := by simpa using hT
    have hncs := need_captcha_state c env s1
    split
    next s2 heq2 =>
      rw [heq2] at hncs
      have hs2 : s2.trace = L ++ [captchaProbeReq c] := by
        have h := congrArg NetState.trace hncs
        simpa [hs1] using h
      obtain ⟨rest, hLp⟩ := login_post_trace pp c fd env s2
      rw [hLp, hs2,
        preSub_before_post (L ++ [captchaProbeReq c]) rest _
          (nonpost_append hNP (by simp)) (by simp)]
      simpa using hC
    next u s2 heq2 =>
      rw [heq2] at hncs
      have hs2 : s2.trace = L ++ [captchaProbeReq c] := by
        have h := congrArg NetState.trace hncs
        simpa [hs1] using h
      split
      · dsimp only
        rw [hs2, preSub_all_nonpost _ (nonpost_append hNP (by simp))]
        simpa using hC
      next f =>
        dsimp only [doRequest]
        split
        · dsimp only
          rw [hs2, preSub_all_nonpost _
            (nonpost_append (nonpost_append hNP (by simp)) (by simp))]
          simpa using hC
        next ans hf =>
          obtain ⟨rest, hLp⟩ := login_post_trace pp c (_need_captcha_handler ans fd) env
            ⟨s2.idx + 1, s2.trace ++ [captchaImageReq]⟩
          rw [hLp]
          dsimp only
          rw [hs2]
          rw [preSub_before_post ((L ++ [captchaProbeReq c]) ++ [captchaImageReq]) rest _
            (nonpost_append (nonpost_append hNP (by simp)) (by simp)) (by simp)]
          simpa using hC

/-- Claim C1: the source (line 91 of `_authserver.py`) assigns the whole
request-data mapping, not the resolved CAPTCHA answer string, to the
`captchaResponse` field.  At the failing input (answer "A1B2", form data
`fdStd`) the injected value is the mapping itself and is not equal to any
answer string. -/
theorem c1_captcha_handler_injects_mapping :
    _need_captcha_handler "A1B2" fdStd =
      fdStd ++ [("captchaResponse", FVal.dict fdStd)] ∧
    dictGet (_need_captcha_handler "A1B2" fdStd) "captchaResponse" =
      some (FVal.dict fdStd) ∧
    dictGet (_need_captcha_handler "A1B2" fdStd) "captchaResponse" ≠
      some (FVal.str "A1B2") := by
  refine ⟨rfl, rfl, ?_⟩
  intro h
  have h2 : FVal.dict fdStd = FVal.str "A1B2" := by
    have h3 : some (FVal.dict fdStd) = some (FVal.str "A1B2") := h
    exact Option.some.inj h3
  exact FVal.noConfusion h2

/-- Claim C2, counterexample: with `force_relogin` and a provider whose
first login-page fetch is a 302 and whose re-fetched form fails to parse
once, three GETs to the login-page endpoint are issued before the
credential-submission POST — more than the two the claim allows. -/
theorem c2_counterexample :
    preSubmissionLoginGets
        ((base_login gfStd ppNone none cfgForce envC2 ⟨0, []⟩).2.trace) = 3 ∧
    ¬ preSubmissionLoginGets
        ((base_login gfStd ppNone none cfgForce envC2 ⟨0, []⟩).2.trace) ≤ 2 := by
  decide

/-- Claim C2, amended: at most 3 GETs to the login-page endpoint are issued
before the credential-submission POST of a login invocation (3 is reached
exactly when the forced-relogin re-fetch is combined with the one
parse-failure retry; otherwise at most 2). -/
theorem c2_amended_bound (gf : GetFormdata) (pp : ParsePage)
    (resolver : Option Resolver) (c : Cfg) (env : Env) (n : Nat) :
    preSubmissionLoginGets ((base_login gf pp resolver c env ⟨n, []⟩).2.trace) ≤ 3 :=
  login_preSubmission_bound gf pp resolver c env n

/-- Claim C3, counterexample: with `force_relogin=true` but a provider that
answers the first login-page fetch with a 200 form page, the whole login
run issues no logout request at all, although a credential submission
takes place. -/
theorem c3_counterexample :
    cfgForce.force_relogin = true ∧
    countLogouts ((base_login gfStd ppNone none cfgForce envC3 ⟨0, []⟩).2.trace) = 0 ∧
    ((base_login gfStd ppNone none cfgForce envC3 ⟨0, []⟩).2.trace.map
        (fun r => (r.isPost, r.url))) =
      [(false, LOGIN_URL), (false, AUTHSERVER_CAPTCHA_DETERMINE_URL),
       (true, LOGIN_URL), (false, "http://service.example")] := by
  decide

/-- Claim C3, amended: with `force_relogin=true` a logout is issued before
the credential submission when the initial login-page fetch is a 302
redirect (the logout then immediately follows that first fetch) or when a
form extraction fails with a parse error (the logout of the single retry);
when the initial fetch returns a valid login form directly, no logout is
issued at all. -/
theorem c3_amended_logout_conditions (gf : GetFormdata) (c : Cfg) (env : Env)
    (s : NetState) (hf : c.force_relogin = true) :
    ((env s.idx).status_code = 302 →
      ∃ rest, (_get_request_data gf c env s).2.trace =
        s.trace ++ loginPageReq c :: logoutReq :: rest) ∧
    ((env s.idx).status_code = 200 →
      gf (env s.idx).text c.username c.password = .error () →
      (_get_request_data gf c env s).2.trace =
        s.trace ++ [loginPageReq c, logoutReq, loginPageReq c]) ∧
    (∀ fd : FormData, (env s.idx).status_code = 200 →
      gf (env s.idx).text c.username c.password = .ok fd →
      (_get_request_data gf c env s).2.trace = s.trace ++ [loginPageReq c] ∧
      countLogouts ((_get_request_data gf c env s).2.trace) = countLogouts s.trace) := by
  refine ⟨?_, ?_, ?_⟩
  · intro h302
    unfold _get_request_data logout_authserver doRequest
    dsimp only
    split
    · split
      · rename_i hforce
        rw [hf] at hforce
        simp at hforce
      · obtain ⟨L2, hT, hNP2, hC2⟩ := extractOrRetry_trace gf c env (env (s.idx + 1 + 1))
          ⟨s.idx + 1 + 1 + 1, s.trace ++ [loginPageReq c] ++ [logoutReq] ++ [loginPageReq c]⟩
        refine ⟨loginPageReq c :: L2, ?_⟩
        rw [wrapRD_snd, hT]
        simp
    · rename_i hcond
      rw [h302] at hcond
      simp at hcond
  · intro h200 hfail
    cases hg2 : gf (env (s.idx + 1 + 1)).text c.username c.password <;>
      simp [_get_request_data, extractOrRetry, wrapRD, logout_authserver, doRequest,
        h200, hfail, hg2]
  · intro fd h200 hok
    have ht : (_get_request_data gf c env s).2.trace = s.trace ++ [loginPageReq c] := by
      simp [_get_request_data, extractOrRetry, wrapRD, logout_authserver, doRequest,
        h200, hok]
    refine ⟨ht, ?_⟩
    rw [ht]
    have hne : ((loginPageReq c).url == LOGOUT_URL) = false := rfl
    simp [countLogouts, List.filter_append, List.filter_cons, hne]

/-- Claim C3, amended, witness: three concrete runs with `force_relogin`
exercising all three cases — a 302 first response (logout right after the
first fetch), a valid 200 form (no logout at all), and an unparsable 200
form (the logout of the retry). -/
theorem c3_amended_conditions_witness :
    cfgForce.force_relogin = true ∧
    (envC2 0).status_code = 302 ∧
    (∃ rest, (_get_request_data gfStd cfgForce envC2 ⟨0, []⟩).2.trace =
      [] ++ loginPageReq cfgForce :: logoutReq :: rest) ∧
    (envC3 0).status_code = 200 ∧
    gfStd (envC3 0).text cfgForce.username cfgForce.password = .ok fdStd ∧
    (_get_request_data gfStd cfgForce envC3 ⟨0, []⟩).2.trace =
      [] ++ [loginPageReq cfgForce] ∧
    countLogouts ((_get_request_data gfStd cfgForce envC3 ⟨0, []⟩).2.trace) =
      countLogouts [] ∧
    gfBad (envPlain 0).text cfgForce.username cfgForce.password = .error () ∧
    (_get_request_data gfBad cfgForce envPlain ⟨0, []⟩).2.trace =
      [] ++ [loginPageReq cfgForce, logoutReq, loginPageReq cfgForce] :=
  ⟨rfl, rfl,
    (c3_amended_logout_conditions gfStd cfgForce envC2 ⟨0, []⟩ rfl).1 rfl,
    rfl, rfl,
    ((c3_amended_logout_conditions gfStd cfgForce envC3 ⟨0, []⟩ rfl).2.2 fdStd rfl rfl).1,
    ((c3_amended_logout_conditions gfStd cfgForce envC3 ⟨0, []⟩ rfl).2.2 fdStd rfl rfl).2,
    rfl,
    (c3_amended_logout_conditions gfBad cfgForce envPlain ⟨0, []⟩ rfl).2.1 rfl rfl⟩

/-- Claim C4, counterexample: the conflict raised with `kick_others=false`
does expose the kick and cancel tokens, but the capabilities carry no
single-use state: invoking the cancel capability twice simply issues the
identical cancel POST twice instead of failing. -/
theorem c4_counterexample :
    (_handle_login_error ppKick cfgDefault envAny respConflict ⟨0, []⟩).1 =
      .error (.multiSessionConflict "ke" "ce") ∧
    (cancel cfgDefault "ce" envAny
        ((cancel cfgDefault "ce" envAny ⟨0, []⟩).2)).2.trace =
      [cancelReq cfgDefault "ce", cancelReq cfgDefault "ce"] := by
  exact ⟨rfl, rfl⟩

/-- Claim C4, amended: a conflict with `kick_others=false` raises
`MultiSessionConflict` exposing exactly one kick and one cancel execution
token; invoking either capability performs its POST (and, for kick, the
redirect) and succeeds — but the code does not prevent a second
invocation, which re-issues the same POST rather than failing. -/
theorem c4_amended_conflict_capabilities (pp : ParsePage) (c : Cfg) (env : Env)
    (lr : Response) (s : NetState)
    (hk : (pp lr.status_code lr.text).kick = true) (ho : c.kick_others = false) :
    (_handle_login_error pp c env lr s =
      (.error (.multiSessionConflict (pp lr.status_code lr.text).kick_execution
        (pp lr.status_code lr.text).cancel_execution), s)) ∧
    (∀ ce : String, ∀ s2 : NetState,
      (cancel c ce env s2).2.trace = s2.trace ++ [cancelReq c ce]) ∧
    (∀ ke : String, ∀ s2 : NetState,
      (kick c ke env s2).2.trace = s2.trace ++ [kickReq c ke, redirectReq (env s2.idx)]) := by
  refine ⟨?_, ?_, ?_⟩
  · simp [_handle_login_error, hk, ho]
  · intro ce s2
    rfl
  · intro ke s2
    simp [kick, _redirect_to_service, doRequest]

/-- Claim C4, amended, witness: a concrete conflict page with
`kick_others=false`. -/
theorem c4_amended_witness :
    (ppKick respConflict.status_code respConflict.text).kick = true ∧
    cfgDefault.kick_others = false ∧
    _handle_login_error ppKick cfgDefault envAny respConflict ⟨0, []⟩ =
      (.error (.multiSessionConflict "ke" "ce"), ⟨0, []⟩) :=
  ⟨rfl, rfl,
    (c4_amended_conflict_capabilities ppKick cfgDefault envAny respConflict ⟨0, []⟩
      rfl rfl).1⟩

/-- Claim C5, counterexample: in a concrete full login run with the default
10-second timeout, only the login-page fetch carries the timeout; the
CAPTCHA probe, the CAPTCHA image fetch, the credential-submission POST and
the redirect-following GET are all issued with no timeout argument. -/
theorem c5_counterexample :
    cfgDefault.timeout = 10 ∧
    ((base_login gfStd ppNone (some resolverStd) cfgDefault envC5 ⟨0, []⟩).2.trace.map
        (fun r => r.timeout)) = [some 10, none, none, none, none] ∧
    ((base_login gfStd ppNone (some resolverStd) cfgDefault envC5 ⟨0, []⟩).2.trace.all
        (fun r => r.timeout == some 10)) = false := by
  decide

/-- Claim C5, amended: the login-page fetch and the conflict kick/cancel
POSTs are bounded by the caller timeout, but the CAPTCHA probe, the
credential-submission POST and the redirect-following GET are issued with
no timeout at all; the probe request is exactly the one `_need_captcha`
appends to the trace. -/
theorem c5_amended_timeouts (c : Cfg) (fd : FormData) (r : Response)
    (ke ce : String) (env : Env) (s : NetState) :
    (loginPageReq c).timeout = some c.timeout ∧
    (kickReq c ke).timeout = some c.timeout ∧
    (cancelReq c ce).timeout = some c.timeout ∧
    (captchaProbeReq c).timeout = none ∧
    (loginPostReq fd).timeout = none ∧
    (redirectReq r).timeout = none ∧
    (_need_captcha c env s).2.trace = s.trace ++ [captchaProbeReq c] := by
  refine ⟨rfl, rfl, rfl, rfl, rfl, rfl, ?_⟩
  have h := need_captcha_state c env s
  rw [h]

/-- Claim C6: when the first extraction of the login form fails with a
parse error, `_get_request_data` performs exactly one forced logout
followed by one re-fetch of the login page; if the second extraction also
fails the parse error propagates, and if it succeeds its form data is
used. -/
theorem c6_parse_retry_once (gf : GetFormdata) (c : Cfg) (env : Env) (s : NetState)
    (h200 : (env s.idx).status_code = 200)
    (hfail : gf (env s.idx).text c.username c.password = .error ()) :
    ((_get_request_data gf c env s).2.trace =
      s.trace ++ [loginPageReq c, logoutReq, loginPageReq c]) ∧
    (gf (env (s.idx + 1 + 1)).text c.username c.password = .error () →
      (_get_request_data gf c env s).1 = .error .parseError) ∧
    (∀ fd : FormData, gf (env (s.idx + 1 + 1)).text c.username c.password = .ok fd →
      (_get_request_data gf c env s).1 = .ok (.formdata (finalizeFormdata c fd))) := by
  refine ⟨?_, ?_, ?_⟩
  · cases hg2 : gf (env (s.idx + 1 + 1)).text c.username c.password <;>
      simp [_get_request_data, extractOrRetry, wrapRD, logout_authserver, doRequest,
        h200, hfail, hg2]
  · intro h2
    simp [_get_request_data, extractOrRetry, wrapRD, logout_authserver, doRequest,
      h200, hfail, h2]
  · intro fd h2
    simp [_get_request_data, extractOrRetry, wrapRD, logout_authserver, doRequest,
      h200, hfail, h2]

/-- Claim C6, witness: a provider that always serves an unparsable 200
form page — the run does login GET, logout, login GET and then raises the
parse error. -/
theorem c6_witness :
    (envPlain 0).status_code = 200 ∧
    gfBad (envPlain 0).text cfgDefault.username cfgDefault.password = .error () ∧
    (_get_request_data gfBad cfgDefault envPlain ⟨0, []⟩).2.trace =
      [] ++ [loginPageReq cfgDefault, logoutReq, loginPageReq cfgDefault] ∧
    (_get_request_data gfBad cfgDefault envPlain ⟨0, []⟩).1 = .error .parseError :=
  ⟨rfl, rfl,
    (c6_parse_retry_once gfBad cfgDefault envPlain ⟨0, []⟩ rfl rfl).1,
    (c6_parse_retry_once gfBad cfgDefault envPlain ⟨0, []⟩ rfl rfl).2.1 rfl⟩

/-- Claim C7: when the credential submission is answered with a non-302
conflict page and `kick_others=true`, no `MultiSessionConflict` is raised:
the kick action is POSTed at once with the parsed kick execution token, its
redirect is followed, and the login returns the final response
successfully. -/
theorem c7_kick_others_no_conflict (pp : ParsePage) (c : Cfg) (fd : FormData)
    (env : Env) (s : NetState)
    (hs : (env s.idx).status_code ≠ 302)
    (hk : (pp (env s.idx).status_code (env s.idx).text).kick = true)
    (ho : c.kick_others = true) :
    _login pp c fd env s =
      (.ok (env (s.idx + 1 + 1)),
        ⟨s.idx + 1 + 1 + 1,
          s.trace ++ [loginPostReq fd,
            kickReq c (pp (env s.idx).status_code (env s.idx).text).kick_execution,
            redirectReq (env (s.idx + 1))]⟩) := by
  unfold _login _handle_login_error kick _redirect_to_service doRequest
  dsimp only
  simp [hs, hk, ho]

/-- Claim C7, witness: a concrete conflict response with
`kick_others=true` — the run is submission POST, kick POST with the kick
token, redirect GET, ending in success. -/
theorem c7_witness :
    (envC7 0).status_code ≠ 302 ∧
    (ppKick (envC7 0).status_code (envC7 0).text).kick = true ∧
    cfgKick.kick_others = true ∧
    _login ppKick cfgKick fdStd envC7 ⟨0, []⟩ =
      (.ok (envC7 2),
        ⟨3, [loginPostReq fdStd, kickReq cfgKick "ke", redirectReq (envC7 1)]⟩) :=
  ⟨by decide, rfl, rfl,
    c7_kick_others_no_conflict ppKick cfgKick fdStd envC7 ⟨0, []⟩ (by decide) rfl rfl⟩

/-- Claim C8: the deprecated wrapper performs the underlying
`access_service` call (same resulting network state) but, lacking a return
statement, never yields the `Response` its docstring promises: a
successful call returns `none`. -/
theorem c8_wrapper_returns_none (env : Env) (service : String) (s : NetState) :
    access_authserver_service env service s =
      ((access_service env service s).1.map (fun _ => (none : Option Response)),
        (access_service env service s).2) := by
  unfold access_authserver_service
  rcases h : access_service env service s with ⟨res, s1⟩
  cases res <;> simp [Except.map]

/-- Claim C9: when the initial login-page fetch is a 302 and
`force_relogin` is false, `_get_request_data` returns the raw redirect
`Response` itself — never a form-data mapping. -/
theorem c9_short_circuit_returns_response (gf : GetFormdata) (c : Cfg) (env : Env)
    (s : NetState) (h302 : (env s.idx).status_code = 302)
    (hf : c.force_relogin = false) :
    _get_request_data gf c env s =
      (.ok (.response (env s.idx)), ⟨s.idx + 1, s.trace ++ [loginPageReq c]⟩) := by
  unfold _get_request_data doRequest
  dsimp only
  simp [h302, hf]

/-- Claim C9, witness: a provider answering 302 with the default
configuration. -/
theorem c9_witness :
    (env302 0).status_code = 302 ∧ cfgDefault.force_relogin = false ∧
    _get_request_data gfStd cfgDefault env302 ⟨0, []⟩ =
      (.ok (.response (env302 0)), ⟨1, [loginPageReq cfgDefault]⟩) :=
  ⟨rfl, rfl,
    c9_short_circuit_returns_response gfStd cfgDefault env302 ⟨0, []⟩ rfl rfl⟩

/-- Claim C10: on a 200 response, `_get_ticket` succeeds exactly when the
first occurrence of `ticket=` starts at a strictly positive offset `i`, in
which case it returns the characters strictly between the end of the
marker and the next single quote (found from `i`); when the marker occurs
at offset 0 it raises `TicketGetError` although the marker is present. -/
theorem c10_ticket_extraction (text : List Char) (i j : Nat)
    (hfind : pyFind text ticketMarker 0 = (i : Int)) :
    (0 < i → pyFind text [quoteChar] i = (j : Int) →
      _get_ticket 200 text =
        .ok ((text.drop (i + ticketMarker.length)).take
          (j - (i + ticketMarker.length)))) ∧
    (i = 0 → _get_ticket 200 text = .error .ticketGetError) := by
  constructor
  · intro hpos hq
    unfold _get_ticket
    rw [if_neg (by simp)]
    rw [hfind, if_pos (by exact_mod_cast hpos), Int.toNat_natCast, hq]
    unfold pySlice
    dsimp only
    rw [if_neg (by exact Int.not_lt.mpr (Int.natCast_nonneg j)), Int.toNat_natCast]
    rw [List.drop_take]
  · intro h0
    subst h0
    unfold _get_ticket
    rw [if_neg (by simp), hfind]
    norm_num

/-- Claim C10, witness: the body `xticket=abc'def` (marker at offset 1,
quote at offset 11) yields the ticket `abc`; the body `ticket=abc'def`
(marker at offset 0) raises `TicketGetError`. -/
theorem c10_witness :
    pyFind tC10 ticketMarker 0 = ((1 : Nat) : Int) ∧
    _get_ticket 200 tC10 =
      .ok ((tC10.drop (1 + ticketMarker.length)).take
        (11 - (1 + ticketMarker.length))) ∧
    pyFind tZero ticketMarker 0 = ((0 : Nat) : Int) ∧
    _get_ticket 200 tZero = .error .ticketGetError :=
  ⟨by decide,
    (c10_ticket_extraction tC10 1 11 (by decide)).1 (by decide) (by decide),
    by decide,
    (c10_ticket_extraction tZero 0 0 (by decide)).2 rfl⟩
